import Mathlib

/-!
Shallow embedding of the core of `linux-bsec-exporter` (the BSEC engine
adapter in `src/bsec.rs`, the persistence layer in `src/persistance.rs` and
the monitoring loop in `src/monitor.rs`).  Engine (FFI) calls, the physical
sensor and the clock are modelled as explicit parameters describing their
outcome; machine integers are `Nat`/`Int`; float values are carried as
uninterpreted bit payloads (the code never computes on them, it only copies
them between records).
-/

namespace LinuxBsec

/-- A 32-bit float value carried opaquely (bit payload); the adapter only
copies float signals, it never computes with them. -/
structure F32 where
  bits : Nat
deriving DecidableEq, Repr

/-- A 64-bit float value carried opaquely (bit payload). -/
structure F64 where
  bits : Nat
deriving DecidableEq, Repr

/-- The `f32 -> f64` widening used by `OutputSignal::try_from`
(`output.signal.into()`); modelled as an injective tagging of the payload. -/
def f32ToF64 (x : F32) : F64 := ⟨x.bits⟩

/-- `std::time::Duration`, in nanoseconds. -/
abbrev Duration := Nat

/-- Opaque state blob (`Vec<u8>`). -/
abbrev Blob := List Nat

/-- `PhysicalSensorInput` from `src/bsec.rs`. -/
inductive PhysicalSensorInput where
  | pressure
  | humidity
  | temperature
  | gasResistor
  | heatSource
  | disableBaselineTracker
deriving DecidableEq, Repr, Fintype

/-- `VirtualSensorOutput` from `src/bsec.rs`. -/
inductive VirtualSensorOutput where
  | iaq
  | staticIaq
  | co2Equivalent
  | breathVocEquivalent
  | rawTemperature
  | rawPressure
  | rawHumidity
  | rawGas
  | stabilizationStatus
  | runInStatus
  | sensorHeatCompensatedTemperature
  | sensorHeatCompensatedHumidity
  | debugCompensatedGas
  | gasPercentage
deriving DecidableEq, Repr, Fintype

/-- The Rust enum discriminant of `VirtualSensorOutput` (`0x0001 ..= 0x2000`),
used as a bit mask (`changed.sensor as u32`) for the local subscription sets. -/
def sensorBit : VirtualSensorOutput → Nat
  | .iaq => 0x0001
  | .staticIaq => 0x0002
  | .co2Equivalent => 0x0004
  | .breathVocEquivalent => 0x0008
  | .rawTemperature => 0x0010
  | .rawPressure => 0x0020
  | .rawHumidity => 0x0040
  | .rawGas => 0x0080
  | .stabilizationStatus => 0x0100
  | .runInStatus => 0x0200
  | .sensorHeatCompensatedTemperature => 0x0400
  | .sensorHeatCompensatedHumidity => 0x0800
  | .debugCompensatedGas => 0x1000
  | .gasPercentage => 0x2000

/-- The bit index such that `sensorBit s = 2 ^ sensorBitIndex s`. -/
def sensorBitIndex : VirtualSensorOutput → Nat
  | .iaq => 0
  | .staticIaq => 1
  | .co2Equivalent => 2
  | .breathVocEquivalent => 3
  | .rawTemperature => 4
  | .rawPressure => 5
  | .rawHumidity => 6
  | .rawGas => 7
  | .stabilizationStatus => 8
  | .runInStatus => 9
  | .sensorHeatCompensatedTemperature => 10
  | .sensorHeatCompensatedHumidity => 11
  | .debugCompensatedGas => 12
  | .gasPercentage => 13

/-- Wire code of a physical sensor (`bsec_physical_sensor_t`, the
`BSEC_INPUT_*` constants of the vendored BSEC header, surfaced through the
generated bindings used by `impl From<PhysicalSensorInput> for
bsec_physical_sensor_t`). -/
def physicalSensorWireCode : PhysicalSensorInput → Nat
  | .pressure => 1
  | .humidity => 2
  | .temperature => 3
  | .gasResistor => 4
  | .heatSource => 14
  | .disableBaselineTracker => 23

/-- Wire code of a virtual sensor (`bsec_virtual_sensor_t`, the
`BSEC_OUTPUT_*` constants of the vendored BSEC header, surfaced through the
generated bindings used by `impl From<VirtualSensorOutput> for
bsec_virtual_sensor_t`). -/
def virtualSensorWireCode : VirtualSensorOutput → Nat
  | .iaq => 1
  | .staticIaq => 2
  | .co2Equivalent => 3
  | .breathVocEquivalent => 4
  | .rawTemperature => 6
  | .rawPressure => 7
  | .rawHumidity => 8
  | .rawGas => 9
  | .stabilizationStatus => 12
  | .runInStatus => 13
  | .sensorHeatCompensatedTemperature => 14
  | .sensorHeatCompensatedHumidity => 15
  | .debugCompensatedGas => 18
  | .gasPercentage => 21

/-- `Accuracy` from `src/bsec.rs`. -/
inductive Accuracy where
  | unreliable
  | lowAccuracy
  | mediumAccuracy
  | highAccuracy
deriving DecidableEq, Repr, Fintype

/-- The Rust enum discriminant of `Accuracy` (`Accuracy as u8`, used e.g. in
`src/metrics.rs`), inverse of the arms of `impl TryFrom<u8> for Accuracy`. -/
def accuracyWireCode : Accuracy → Nat
  | .unreliable => 0
  | .lowAccuracy => 1
  | .mediumAccuracy => 2
  | .highAccuracy => 3

/-- `ConversionError` from `src/bsec.rs`. -/
inductive ConversionError where
  | invalidSampleRate (rate : F64)
  | invalidPhysicalSensorId (id : Nat)
  | invalidVirtualSensorId (id : Nat)
  | invalidAccuracy (code : Nat)
deriving DecidableEq, Repr

/-- `impl TryFrom<u32> for PhysicalSensorInput` (the `u8` instance delegates
to it via `as u32`). -/
def PhysicalSensorInput.tryFrom (c : Nat) : Except ConversionError PhysicalSensorInput :=
  if c = 1 then .ok .pressure
  else if c = 2 then .ok .humidity
  else if c = 3 then .ok .temperature
  else if c = 4 then .ok .gasResistor
  else if c = 14 then .ok .heatSource
  else if c = 23 then .ok .disableBaselineTracker
  else .error (.invalidPhysicalSensorId c)

/-- `impl TryFrom<bsec_virtual_sensor_t> for VirtualSensorOutput` (the `u8`
instance delegates to it via `as bsec_virtual_sensor_t`). -/
def VirtualSensorOutput.tryFrom (c : Nat) : Except ConversionError VirtualSensorOutput :=
  if c = 1 then .ok .iaq
  else if c = 2 then .ok .staticIaq
  else if c = 3 then .ok .co2Equivalent
  else if c = 4 then .ok .breathVocEquivalent
  else if c = 6 then .ok .rawTemperature
  else if c = 7 then .ok .rawPressure
  else if c = 8 then .ok .rawHumidity
  else if c = 9 then .ok .rawGas
  else if c = 12 then .ok .stabilizationStatus
  else if c = 13 then .ok .runInStatus
  else if c = 14 then .ok .sensorHeatCompensatedTemperature
  else if c = 15 then .ok .sensorHeatCompensatedHumidity
  else if c = 18 then .ok .debugCompensatedGas
  else if c = 21 then .ok .gasPercentage
  else .error (.invalidVirtualSensorId c)

/-- `impl TryFrom<u8> for Accuracy`. -/
def Accuracy.tryFrom (c : Nat) : Except ConversionError Accuracy :=
  if c = 0 then .ok .unreliable
  else if c = 1 then .ok .lowAccuracy
  else if c = 2 then .ok .mediumAccuracy
  else if c = 3 then .ok .highAccuracy
  else .error (.invalidAccuracy c)

/-- `SampleRate` from `src/bsec.rs`. -/
inductive SampleRate where
  | disabled
  | ulp
  | continuous
  | lp
  | ulpMeasurementOnDemand
deriving DecidableEq, Repr, Fintype

/-- `RequestedSensorConfiguration` from `src/bsec.rs`. -/
structure RequestedSensorConfiguration where
  sampleRate : SampleRate
  sensor : VirtualSensorOutput
deriving DecidableEq, Repr

/-- The engine wire struct `bsec_sensor_configuration_t`. -/
structure BsecSensorConfigurationT where
  sample_rate : F32
  sensor_id : Nat
deriving DecidableEq, Repr

/-- `RequiredSensorSettings` from `src/bsec.rs`. -/
structure RequiredSensorSettings where
  sampleRate : F32
  sensor : PhysicalSensorInput
deriving DecidableEq, Repr

/-- `impl TryFrom<&bsec_sensor_configuration_t> for RequiredSensorSettings`. -/
def RequiredSensorSettings.tryFrom (c : BsecSensorConfigurationT) :
    Except ConversionError RequiredSensorSettings := do
  let sensor ← PhysicalSensorInput.tryFrom c.sensor_id
  pure { sampleRate := c.sample_rate, sensor := sensor }

/-- The engine wire struct `bsec_input_t`. -/
structure BsecInputT where
  time_stamp : Int
  signal : F32
  signal_dimensions : Nat
  sensor_id : Nat
deriving DecidableEq, Repr

/-- The engine wire struct `bsec_output_t`. -/
structure BsecOutputT where
  time_stamp : Int
  signal : F32
  signal_dimensions : Nat
  sensor_id : Nat
  accuracy : Nat
deriving DecidableEq, Repr

/-- `OutputSignal` from `src/bsec.rs`. -/
structure OutputSignal where
  timestamp_ns : Int
  signal : F64
  sensor : VirtualSensorOutput
  accuracy : Accuracy
deriving DecidableEq, Repr

/-- `impl TryFrom<&bsec_output_t> for OutputSignal`; the sensor id is
converted before the accuracy code, mirroring the field evaluation order of
the Rust struct literal. -/
def OutputSignal.tryFrom (o : BsecOutputT) : Except ConversionError OutputSignal := do
  let sensor ← VirtualSensorOutput.tryFrom o.sensor_id
  let accuracy ← Accuracy.tryFrom o.accuracy
  pure { timestamp_ns := o.time_stamp, signal := f32ToF64 o.signal
         sensor := sensor, accuracy := accuracy }

/-- `BmeOutput` from `src/bsec.rs`: one physical reading delivered by the
sensor driver. -/
structure BmeOutput where
  signal : F32
  sensor : PhysicalSensorInput
deriving DecidableEq, Repr

/-- The engine wire struct `bsec_bme_settings_t` (the control directive). -/
structure BsecBmeSettingsT where
  next_call : Int
  process_data : Nat
  heater_temperature : Nat
  heating_duration : Nat
  run_gas : Nat
  pressure_oversampling : Nat
  temperature_oversampling : Nat
  humidity_oversampling : Nat
  trigger_measurement : Nat
deriving DecidableEq, Repr

/-- An engine protocol error (`BsecError`); the claims never inspect the
translation from raw return codes to the named variants of `src/bsec.rs`,
so the error is carried as its raw nonzero return code. -/
structure BsecError where
  returnCode : Int
deriving DecidableEq, Repr

/-- `Error<E>` from `src/bsec.rs`. -/
inductive Error (ε : Type) where
  | argumentListTooLong
  | bsecAlreadyInUse
  | bsecError (e : BsecError)
  | conversionError (e : ConversionError)
  | bmeSensorError (e : ε)
deriving DecidableEq, Repr

/-- `nb::Error<E>`: either "would block, retry later" or an actual error. -/
inductive NbError (ε : Type) where
  | wouldBlock
  | other (e : ε)
deriving DecidableEq, Repr

/-- The in-memory state of the `Bsec` engine adapter (`struct Bsec` in
`src/bsec.rs`): the subscribed and queued-one-shot bit sets (`u32` masks of
`VirtualSensorOutput` discriminants) and the stored next-measurement time. -/
structure Bsec where
  subscribed : Nat
  ulpPlusQueue : Nat
  nextMeasurement : Int
deriving DecidableEq, Repr

/-- Bitwise complement within a `u32` (Rust `!mask` on a `u32`). -/
def u32Not (x : Nat) : Nat := 0xFFFFFFFF ^^^ x

/-- `u32::count_ones`. -/
def countOnes (n : Nat) : Nat :=
  if n = 0 then 0 else n % 2 + countOnes (n / 2)
decreasing_by exact Nat.div_lt_self (Nat.pos_of_ne_zero (by assumption)) (by decide)

/-- Maximum value representable in the wire protocol's `u8` count fields
(`len().try_into::<u8>()` fails above this). -/
def U8_MAX : Nat := 255

/-- Outcome of `Bsec::init` (`src/bsec.rs` lines 61-76): the returned value
and the global `BSEC_IN_USE` flag afterwards.  The engine's one-time
initialization call is a parameter (`engineInit`). -/
def Bsec.init {ε : Type} (inUse : Bool) (engineInit : Except BsecError Unit) (now : Int) :
    Except (Error ε) Bsec × Bool :=
  if !inUse then
    match engineInit with
    | .error e => (.error (.bsecError e), true)
    | .ok _ => (.ok { subscribed := 0, ulpPlusQueue := 0, nextMeasurement := now }, true)
  else
    (.error .bsecAlreadyInUse, inUse)

/-- `impl Drop for Bsec` (`src/bsec.rs` lines 292-296): the global
`BSEC_IN_USE` flag is stored `false`. -/
def Bsec.drop (_inUse : Bool) : Bool := false

/-- Result of `Bsec::update_subscription`: the returned value, the adapter
state afterwards, and whether the engine call `bsec_update_subscription` was
issued. -/
structure SubscriptionOutcome (ε : Type) where
  result : Except (Error ε) (List RequiredSensorSettings)
  state : Bsec
  engineCalled : Bool
deriving Repr

/-- The local-set update loop of `Bsec::update_subscription`
(`src/bsec.rs` lines 101-114). -/
def applyRequest (st : Bsec) (changed : RequestedSensorConfiguration) : Bsec :=
  match changed.sampleRate with
  | .disabled =>
      { st with subscribed := st.subscribed &&& u32Not (sensorBit changed.sensor)
                ulpPlusQueue := st.ulpPlusQueue &&& u32Not (sensorBit changed.sensor) }
  | .ulpMeasurementOnDemand =>
      { st with ulpPlusQueue := st.ulpPlusQueue ||| sensorBit changed.sensor }
  | _ =>
      { st with subscribed := st.subscribed ||| sensorBit changed.sensor }

/-- `Bsec::update_subscription` (`src/bsec.rs` lines 78-121).  The outcome of
the engine call `bsec_update_subscription` is the parameter `engine`: on
success it yields the filled settings buffer together with the count the
engine wrote into `n_required_sensor_settings`. -/
def Bsec.updateSubscription {ε : Type} (st : Bsec)
    (requestedOutputs : List RequestedSensorConfiguration)
    (engine : Except BsecError (List BsecSensorConfigurationT × Nat)) :
    SubscriptionOutcome ε :=
  if requestedOutputs.length > U8_MAX then
    { result := .error .argumentListTooLong, state := st, engineCalled := false }
  else
    match engine with
    | .error e => { result := .error (.bsecError e), state := st, engineCalled := true }
    | .ok (buf, n) =>
      { result := .ok ((buf.take n).filterMap fun x => (RequiredSensorSettings.tryFrom x).toOption)
        state := requestedOutputs.foldl applyRequest st
        engineCalled := true }

/-- Result of `Bsec::start_next_measurement`: the returned value, the adapter
state afterwards, and the list of directives passed to the sensor's
`start_measurement` (in call order). -/
structure StartOutcome (ε : Type) where
  result : Except (NbError (Error ε)) Duration
  state : Bsec
  sensorCalls : List BsecBmeSettingsT
deriving Repr

/-- `Bsec::start_next_measurement` (`src/bsec.rs` lines 126-151).  The
directive written by `bsec_sensor_control` at the current timestamp is the
parameter `control`; the sensor's `start_measurement` is the parameter
`startMeasurement`. -/
def Bsec.startNextMeasurement {ε : Type} (st : Bsec)
    (control : Except BsecError BsecBmeSettingsT)
    (startMeasurement : BsecBmeSettingsT → Except ε Duration) :
    StartOutcome ε :=
  match control with
  | .error e => { result := .error (.other (.bsecError e)), state := st, sensorCalls := [] }
  | .ok s =>
    let st' := { st with nextMeasurement := s.next_call }
    if s.trigger_measurement ≠ 1 then
      { result := .error .wouldBlock, state := st', sensorCalls := [] }
    else
      match startMeasurement s with
      | .ok d => { result := .ok d, state := st', sensorCalls := [s] }
      | .error e =>
        { result := .error (.other (.bmeSensorError e)), state := st', sensorCalls := [s] }

/-- Result of `Bsec::process_last_measurement`: the returned value, the
adapter state afterwards, and the output-buffer capacity handed to
`bsec_do_steps` (`none` when the engine step was not reached). -/
structure ProcessOutcome (ε : Type) where
  result : Except (NbError (Error ε)) (List OutputSignal)
  state : Bsec
  stepBuffer : Option Nat
deriving Repr

/-- The wire inputs built from the sensor readings in
`Bsec::process_last_measurement`: each reading is tagged with the shared
timestamp and its physical-sensor wire code. -/
def wireInputs (timeStamp : Int) (meas : List BmeOutput) : List BsecInputT :=
  meas.map fun o =>
    { time_stamp := timeStamp, signal := o.signal, signal_dimensions := 1
      sensor_id := physicalSensorWireCode o.sensor }

/-- `Bsec::process_last_measurement` (`src/bsec.rs` lines 152-201).  The
sensor poll `bme.get_measurement()` is the parameter `getMeasurement`; the
engine step `bsec_do_steps` is the parameter `doSteps`, receiving the wire
inputs and the output-buffer capacity and yielding, on success, the filled
output buffer together with the count the engine wrote into `num_outputs`.
The one-shot queue is cleared after the `num_outputs` conversion check and
before the inputs-length check, mirroring the statement order of the Rust
function. -/
def Bsec.processLastMeasurement {ε : Type} (st : Bsec) (timeStamp : Int)
    (getMeasurement : Except (NbError ε) (List BmeOutput))
    (doSteps : List BsecInputT → Nat → Except BsecError (List BsecOutputT × Nat)) :
    ProcessOutcome ε :=
  match getMeasurement with
  | .error .wouldBlock => { result := .error .wouldBlock, state := st, stepBuffer := none }
  | .error (.other e) =>
      { result := .error (.other (.bmeSensorError e)), state := st, stepBuffer := none }
  | .ok meas =>
    if countOnes (st.subscribed ||| st.ulpPlusQueue) > U8_MAX then
      { result := .error (.other .argumentListTooLong), state := st, stepBuffer := none }
    else if (wireInputs timeStamp meas).length > U8_MAX then
      { result := .error (.other .argumentListTooLong), state := { st with ulpPlusQueue := 0 }
        stepBuffer := none }
    else
      match doSteps (wireInputs timeStamp meas) (countOnes (st.subscribed ||| st.ulpPlusQueue)) with
      | .error e =>
          { result := .error (.other (.bsecError e)), state := { st with ulpPlusQueue := 0 }
            stepBuffer := some (countOnes (st.subscribed ||| st.ulpPlusQueue)) }
      | .ok (outs, n) =>
        match (outs.take n).mapM OutputSignal.tryFrom with
        | .error ce =>
            { result := .error (.other (.conversionError ce))
              state := { st with ulpPlusQueue := 0 }
              stepBuffer := some (countOnes (st.subscribed ||| st.ulpPlusQueue)) }
        | .ok signals =>
            { result := .ok signals, state := { st with ulpPlusQueue := 0 }
              stepBuffer := some (countOnes (st.subscribed ||| st.ulpPlusQueue)) }

/-- The kind of an I/O error (`std::io::ErrorKind`); only `NotFound` is
inspected by the code. -/
inductive IoErrorKind where
  | notFound
  | permissionDenied
  | otherKind
deriving DecidableEq, Repr

/-- A `std::io::Error`, reduced to its kind. -/
structure IoError where
  kind : IoErrorKind
deriving DecidableEq, Repr

/-- Outcome of `File::open` on the state file: on success, the subsequent
`read_to_end` outcome (the file's contents, or an I/O failure mid-read). -/
inductive FileOpenResult where
  | opened (readResult : Except IoError Blob)
  | failed (e : IoError)
deriving Repr

/-- `StateFile::load_state` (`src/persistance.rs` lines 32-44). -/
def StateFile.loadState (f : FileOpenResult) : Except IoError (Option Blob) :=
  match f with
  | .opened readResult =>
    match readResult with
    | .ok state => .ok (some state)
    | .error e => .error e
  | .failed e =>
    match e.kind with
    | .notFound => .ok none
    | _ => .error e

/-- Outcome of the startup phase of `Monitor::monitoring_loop`
(`src/monitor.rs` lines 73-75): the result, and the state blob that was
restored into the engine via `bsec.set_state`, if any. -/
structure StartupOutcome (μ : Type) where
  result : Except μ Unit
  restored : Option Blob
deriving Repr

/-- The startup phase of `Monitor::monitoring_loop`: load the persisted
state and, only when one is present, restore it into the engine.  The
persistence load and the engine restore are parameters. -/
def Monitor.startupRestore {μ : Type} (load : Except μ (Option Blob))
    (setState : Blob → Except μ Unit) : StartupOutcome μ :=
  match load with
  | .error e => { result := .error e, restored := none }
  | .ok none => { result := .ok (), restored := none }
  | .ok (some s) =>
    match setState s with
    | .ok _ => { result := .ok (), restored := some s }
    | .error e => { result := .error e, restored := some s }

/-- The autosave threshold of `Monitor::monitoring_loop` (`src/monitor.rs`
line 79), in nanoseconds of engine-clock time. -/
def SAVE_STATE_INTERVAL_NS : Int := 60000000000

/-- The per-iteration environment of `Monitor::monitoring_loop`: outcomes of
the effectful calls the loop body makes at iteration `i`.  `tick i` is the
measurement step `set_current.send(next_measurement(..))` (mutating the
engine adapter); `timeAtCheck i` and `timeAtSave i` are the two
`time.timestamp_ns()` readings of the autosave branch; `stateAt i` and
`saveAt i` are `bsec.get_state()` and `persistence.save_state` inside the
loop; `finalState`/`finalSave` are the same two calls after the loop. -/
structure LoopEnv (μ : Type) where
  tick : Nat → Bsec → Except μ Bsec
  timeAtCheck : Nat → Int
  timeAtSave : Nat → Int
  stateAt : Nat → Except μ Blob
  saveAt : Nat → Blob → Except μ Unit
  finalState : Except μ Blob
  finalSave : Blob → Except μ Unit

/-- Result of the monitoring loop: the ordered list of persisted blobs and,
on normal exit, the owned values (`Ok((bsec, persistence))`) returned to the
caller. -/
inductive LoopResult (μ β : Type) where
  | finished (saves : List Blob) (owned : β)
  | failed (saves : List Blob) (e : μ)
deriving Repr

/-- The `while shutdown_requested.try_recv().is_err()` loop of
`Monitor::monitoring_loop` (`src/monitor.rs` lines 77-88), followed by the
final save and the return of ownership.  `k` is the number of loop-condition
checks that still observe no shutdown request (the shutdown signal is
observed at the `(k+1)`-th check); `i` numbers iterations; `lastSave` is
`last_state_save`; `saves` accumulates the blobs persisted so far; `persist`
is the persistence handle threaded through to the return value. -/
def monitoringLoopFrom {μ π : Type} (env : LoopEnv μ) (persist : π) :
    Nat → Nat → Bsec → Int → List Blob → LoopResult μ (Bsec × π)
  | 0, _, bsec, _, saves =>
    match env.finalState with
    | .error e => .failed saves e
    | .ok b =>
      match env.finalSave b with
      | .error e => .failed saves e
      | .ok _ => .finished (saves ++ [b]) (bsec, persist)
  | k + 1, i, bsec, lastSave, saves =>
    match env.tick i bsec with
    | .error e => .failed saves e
    | .ok bsec' =>
      if env.timeAtCheck i - lastSave ≥ SAVE_STATE_INTERVAL_NS then
        match env.stateAt i with
        | .error e => .failed saves e
        | .ok b =>
          match env.saveAt i b with
          | .error e => .failed saves e
          | .ok _ => monitoringLoopFrom env persist k (i + 1) bsec' (env.timeAtSave i) (saves ++ [b])
      else monitoringLoopFrom env persist k (i + 1) bsec' lastSave saves

/-- `Monitor::monitoring_loop` (`src/monitor.rs` lines 61-89): record the
initial `last_state_save` timestamp `t0`, load and possibly restore persisted
state, then run the loop until the shutdown signal is observed at the
`(k+1)`-th check. -/
def Monitor.monitoringLoop {μ π : Type} (env : LoopEnv μ) (persist : π)
    (load : Except μ (Option Blob)) (setState : Blob → Except μ Unit)
    (bsec0 : Bsec) (t0 : Int) (k : Nat) : LoopResult μ (Bsec × π) :=
  match (Monitor.startupRestore load setState).result with
  | .error e => .failed [] e
  | .ok _ => monitoringLoopFrom env persist k 0 bsec0 t0 []

/-- Specification-side recurrence: the value of `last_state_save` at the
start of iteration `i` when every effectful call so far succeeded. -/
def lastSaveAfter {μ : Type} (env : LoopEnv μ) (t0 : Int) : Nat → Int
  | 0 => t0
  | i + 1 =>
    if env.timeAtCheck i - lastSaveAfter env t0 i ≥ SAVE_STATE_INTERVAL_NS then env.timeAtSave i
    else lastSaveAfter env t0 i

/-- Specification-side recurrence: the blobs persisted during the first `i`
iterations when every effectful call succeeded. -/
def savesUpTo {μ : Type} (env : LoopEnv μ) (t0 : Int) : Nat → List Blob
  | 0 => []
  | i + 1 =>
    savesUpTo env t0 i ++
      if env.timeAtCheck i - lastSaveAfter env t0 i ≥ SAVE_STATE_INTERVAL_NS then
        match env.stateAt i with
        | .ok b => [b]
        | .error _ => []
      else []

/-- Specification-side recurrence: the engine adapter after the first `i`
measurement ticks when every tick succeeded. -/
def bsecAfter {μ : Type} (env : LoopEnv μ) (bsec0 : Bsec) : Nat → Bsec
  | 0 => bsec0
  | i + 1 =>
    match env.tick i (bsecAfter env bsec0 i) with
    | .ok b => b
    | .error _ => bsecAfter env bsec0 i

/-! ## Helper lemmas -/

theorem physical_tryFrom_roundTrip (s : PhysicalSensorInput) :
    PhysicalSensorInput.tryFrom (physicalSensorWireCode s) = .ok s := by
  cases s <;> rfl

theorem virtual_tryFrom_roundTrip (s : VirtualSensorOutput) :
    VirtualSensorOutput.tryFrom (virtualSensorWireCode s) = .ok s := by
  cases s <;> rfl

theorem accuracy_tryFrom_roundTrip (a : Accuracy) :
    Accuracy.tryFrom (accuracyWireCode a) = .ok a := by
  cases a <;> rfl

theorem physical_tryFrom_invalid (c : Nat) (h : ∀ s, physicalSensorWireCode s ≠ c) :
    PhysicalSensorInput.tryFrom c = .error (.invalidPhysicalSensorId c) := by
  have h1 : ¬c = 1 := Ne.symm (h .pressure)
  have h2 : ¬c = 2 := Ne.symm (h .humidity)
  have h3 : ¬c = 3 := Ne.symm (h .temperature)
  have h4 : ¬c = 4 := Ne.symm (h .gasResistor)
  have h14 : ¬c = 14 := Ne.symm (h .heatSource)
  have h23 : ¬c = 23 := Ne.symm (h .disableBaselineTracker)
  unfold PhysicalSensorInput.tryFrom
  rw [if_neg h1, if_neg h2, if_neg h3, if_neg h4, if_neg h14, if_neg h23]

theorem virtual_tryFrom_invalid (c : Nat) (h : ∀ s, virtualSensorWireCode s ≠ c) :
    VirtualSensorOutput.tryFrom c = .error (.invalidVirtualSensorId c) := by
  have h1 : ¬c = 1 := Ne.symm (h .iaq)
  have h2 : ¬c = 2 := Ne.symm (h .staticIaq)
  have h3 : ¬c = 3 := Ne.symm (h .co2Equivalent)
  have h4 : ¬c = 4 := Ne.symm (h .breathVocEquivalent)
  have h6 : ¬c = 6 := Ne.symm (h .rawTemperature)
  have h7 : ¬c = 7 := Ne.symm (h .rawPressure)
  have h8 : ¬c = 8 := Ne.symm (h .rawHumidity)
  have h9 : ¬c = 9 := Ne.symm (h .rawGas)
  have h12 : ¬c = 12 := Ne.symm (h .stabilizationStatus)
  have h13 : ¬c = 13 := Ne.symm (h .runInStatus)
  have h14 : ¬c = 14 := Ne.symm (h .sensorHeatCompensatedTemperature)
  have h15 : ¬c = 15 := Ne.symm (h .sensorHeatCompensatedHumidity)
  have h18 : ¬c = 18 := Ne.symm (h .debugCompensatedGas)
  have h21 : ¬c = 21 := Ne.symm (h .gasPercentage)
  unfold VirtualSensorOutput.tryFrom
  rw [if_neg h1, if_neg h2, if_neg h3, if_neg h4, if_neg h6, if_neg h7, if_neg h8,
    if_neg h9, if_neg h12, if_neg h13, if_neg h14, if_neg h15, if_neg h18, if_neg h21]

theorem accuracy_tryFrom_invalid (c : Nat) (h : ∀ a, accuracyWireCode a ≠ c) :
    Accuracy.tryFrom c = .error (.invalidAccuracy c) := by
  have h0 : ¬c = 0 := Ne.symm (h .unreliable)
  have h1 : ¬c = 1 := Ne.symm (h .lowAccuracy)
  have h2 : ¬c = 2 := Ne.symm (h .mediumAccuracy)
  have h3 : ¬c = 3 := Ne.symm (h .highAccuracy)
  unfold Accuracy.tryFrom
  rw [if_neg h0, if_neg h1, if_neg h2, if_neg h3]

/-! ## Claims -/

/-- Claim C9: the domain-to-wire-code conversions are bijective round-trips:
converting any `PhysicalSensorInput`, `VirtualSensorOutput` or `Accuracy`
value to its wire code and back yields `Ok` of the original value, and every
wire code outside the defined set yields the matching `ConversionError`
variant carrying the offending code, never a silently substituted default. -/
theorem c9_wire_code_round_trips :
    (∀ s : PhysicalSensorInput,
      PhysicalSensorInput.tryFrom (physicalSensorWireCode s) = .ok s) ∧
    (∀ s : VirtualSensorOutput,
      VirtualSensorOutput.tryFrom (virtualSensorWireCode s) = .ok s) ∧
    (∀ a : Accuracy, Accuracy.tryFrom (accuracyWireCode a) = .ok a) ∧
    (∀ c : Nat, (∀ s, physicalSensorWireCode s ≠ c) →
      PhysicalSensorInput.tryFrom c = .error (.invalidPhysicalSensorId c)) ∧
    (∀ c : Nat, (∀ s, virtualSensorWireCode s ≠ c) →
      VirtualSensorOutput.tryFrom c = .error (.invalidVirtualSensorId c)) ∧
    (∀ c : Nat, (∀ a, accuracyWireCode a ≠ c) →
      Accuracy.tryFrom c = .error (.invalidAccuracy c)) :=
  ⟨physical_tryFrom_roundTrip, virtual_tryFrom_roundTrip, accuracy_tryFrom_roundTrip,
    physical_tryFrom_invalid, virtual_tryFrom_invalid, accuracy_tryFrom_invalid⟩

/-- Witness for C9 at concrete wire codes outside the defined sets. -/
theorem c9_wire_code_round_trips_witness :
    PhysicalSensorInput.tryFrom 0 = .error (.invalidPhysicalSensorId 0) ∧
    VirtualSensorOutput.tryFrom 5 = .error (.invalidVirtualSensorId 5) ∧
    Accuracy.tryFrom 4 = .error (.invalidAccuracy 4) :=
  ⟨c9_wire_code_round_trips.2.2.2.1 0 (by decide),
    c9_wire_code_round_trips.2.2.2.2.1 5 (by decide),
    c9_wire_code_round_trips.2.2.2.2.2 4 (by decide)⟩

/-- Claim C1: at most one live engine instance exists per process: calling
`Bsec::init` while the in-use flag is held returns `BsecAlreadyInUse` and
leaves the flag unchanged (for any outcome of the engine's initialization
call), a successful `Bsec::init` takes the flag, dropping the instance
releases the flag, and a subsequent `Bsec::init` then succeeds again with a
fresh adapter state. -/
theorem c1_exclusive_engine_instance :
    (∀ (einit : Except BsecError Unit) (now : Int),
      Bsec.init (ε := Unit) true einit now = (.error .bsecAlreadyInUse, true)) ∧
    (∀ now : Int,
      Bsec.init (ε := Unit) false (.ok ()) now
        = (.ok { subscribed := 0, ulpPlusQueue := 0, nextMeasurement := now }, true)) ∧
    (Bsec.drop true = false) ∧
    (∀ now : Int,
      Bsec.init (ε := Unit) (Bsec.drop true) (.ok ()) now
        = (.ok { subscribed := 0, ulpPlusQueue := 0, nextMeasurement := now }, true)) := by
  constructor
  · intro einit now
    cases einit <;> rfl
  constructor
  · intro now
    rfl
  constructor
  · rfl
  · intro now
    rfl

/-- Claim C6: `update_subscription` fails with `ArgumentListTooLong`, without
issuing the engine call, exactly when the request count does not fit the wire
protocol's `u8` count field; for any request list whose length fits, the
engine call is issued and the length check can no longer produce
`ArgumentListTooLong`. -/
theorem c6_request_count_limit (st : Bsec) (rs : List RequestedSensorConfiguration)
    (engine : Except BsecError (List BsecSensorConfigurationT × Nat)) :
    (rs.length > U8_MAX →
      (Bsec.updateSubscription (ε := Unit) st rs engine).result = .error .argumentListTooLong ∧
      (Bsec.updateSubscription (ε := Unit) st rs engine).state = st ∧
      (Bsec.updateSubscription (ε := Unit) st rs engine).engineCalled = false) ∧
    (rs.length ≤ U8_MAX →
      (Bsec.updateSubscription (ε := Unit) st rs engine).engineCalled = true ∧
      (Bsec.updateSubscription (ε := Unit) st rs engine).result ≠ .error .argumentListTooLong) := by
  constructor
  · intro h
    unfold Bsec.updateSubscription
    rw [if_pos h]
    exact ⟨rfl, rfl, rfl⟩
  · intro h
    unfold Bsec.updateSubscription
    rw [if_neg (by omega : ¬rs.length > U8_MAX)]
    cases engine with
    | error e => exact ⟨rfl, by simp⟩
    | ok p => exact ⟨rfl, by simp⟩

/-- Witness for C6: one request list of length 256 (too long) and one of
length 0 (fits). -/
theorem c6_request_count_limit_witness :
    ((Bsec.updateSubscription (ε := Unit) ⟨0, 0, 0⟩
        (List.replicate 256 ⟨.lp, .iaq⟩) (.ok ([], 0))).engineCalled = false) ∧
    ((Bsec.updateSubscription (ε := Unit) ⟨0, 0, 0⟩ [] (.ok ([], 0))).engineCalled = true) :=
  ⟨((c6_request_count_limit ⟨0, 0, 0⟩ (List.replicate 256 ⟨.lp, .iaq⟩) (.ok ([], 0))).1
      (by rw [List.length_replicate]; decide)).2.2,
    ((c6_request_count_limit ⟨0, 0, 0⟩ [] (.ok ([], 0))).2 (by decide)).1⟩

theorem startNextMeasurement_ok {ε : Type} (st : Bsec) (s : BsecBmeSettingsT)
    (startMeasurement : BsecBmeSettingsT → Except ε Duration) :
    Bsec.startNextMeasurement st (.ok s) startMeasurement =
      if s.trigger_measurement ≠ 1 then
        { result := .error .wouldBlock, state := { st with nextMeasurement := s.next_call }
          sensorCalls := [] }
      else
        match startMeasurement s with
        | .ok d =>
          { result := .ok d, state := { st with nextMeasurement := s.next_call }
            sensorCalls := [s] }
        | .error e =>
          { result := .error (.other (.bmeSensorError e))
            state := { st with nextMeasurement := s.next_call }, sensorCalls := [s] } := rfl

/-- Claim C5: every `start_next_measurement` call that obtains a directive
from the engine stores the directive's `next_call` as the adapter's new
next-measurement time; when `trigger_measurement` is not 1 it returns
`WouldBlock` without invoking the sensor; otherwise it invokes the sensor's
`start_measurement` exactly once, with the directive's settings, and returns
the duration the sensor reports. -/
theorem c5_start_next_measurement_behavior (st : Bsec) (s : BsecBmeSettingsT)
    (startMeasurement : BsecBmeSettingsT → Except Unit Duration) :
    (Bsec.startNextMeasurement st (.ok s) startMeasurement).state.nextMeasurement
      = s.next_call ∧
    (s.trigger_measurement ≠ 1 →
      (Bsec.startNextMeasurement st (.ok s) startMeasurement).result = .error .wouldBlock ∧
      (Bsec.startNextMeasurement st (.ok s) startMeasurement).sensorCalls = []) ∧
    (s.trigger_measurement = 1 →
      (Bsec.startNextMeasurement st (.ok s) startMeasurement).sensorCalls = [s] ∧
      (∀ d, startMeasurement s = .ok d →
        (Bsec.startNextMeasurement st (.ok s) startMeasurement).result = .ok d)) := by
  rw [startNextMeasurement_ok]
  by_cases h : s.trigger_measurement = 1
  · rw [if_neg (by simp [h])]
    cases hsm : startMeasurement s with
    | ok d =>
      exact ⟨rfl, fun hne => absurd h hne, fun _ =>
        ⟨rfl, fun d' hd => by injection hd with hdd; rw [hdd]⟩⟩
    | error e =>
      exact ⟨rfl, fun hne => absurd h hne, fun _ =>
        ⟨rfl, fun d' hd => Except.noConfusion hd⟩⟩
  · rw [if_pos h]
    exact ⟨rfl, fun _ => ⟨rfl, rfl⟩, fun heq => absurd heq h⟩

/-- Witness for C5: a directive with `trigger_measurement = 0` yields
`WouldBlock` with no sensor call; one with `trigger_measurement = 1` invokes
the sensor once and returns its reported duration. -/
theorem c5_start_next_measurement_behavior_witness :
    ((Bsec.startNextMeasurement ⟨0, 0, 0⟩ (.ok ⟨7, 1, 300, 100, 1, 1, 1, 1, 0⟩)
        (fun _ => (.ok 5 : Except Unit Duration))).result = .error .wouldBlock) ∧
    ((Bsec.startNextMeasurement ⟨0, 0, 0⟩ (.ok ⟨7, 1, 300, 100, 1, 1, 1, 1, 1⟩)
        (fun _ => (.ok 5 : Except Unit Duration))).result = .ok 5) :=
  ⟨((c5_start_next_measurement_behavior ⟨0, 0, 0⟩ ⟨7, 1, 300, 100, 1, 1, 1, 1, 0⟩
        (fun _ => .ok 5)).2.1 (by decide)).1,
    ((c5_start_next_measurement_behavior ⟨0, 0, 0⟩ ⟨7, 1, 300, 100, 1, 1, 1, 1, 1⟩
        (fun _ => .ok 5)).2.2 rfl).2 5 rfl⟩

theorem countOnes_le (w : Nat) : ∀ n : Nat, n < 2 ^ w → countOnes n ≤ w := by
  induction w with
  | zero =>
    intro n h
    have hn : n = 0 := by omega
    subst hn
    simp [countOnes]
  | succ w ih =>
    intro n h
    rw [countOnes.eq_def]
    split
    · exact Nat.zero_le _
    · have h2 : n / 2 < 2 ^ w := by
        rw [Nat.div_lt_iff_lt_mul (by decide : 0 < 2)]
        calc n < 2 ^ (w + 1) := h
          _ = 2 ^ w * 2 := by rw [Nat.pow_succ]
      have := ih (n / 2) h2
      have hm : n % 2 ≤ 1 := by omega
      omega

/-- Output-buffer capacity bound: with genuine `u32` subscription masks the
output buffer of `process_last_measurement` holds at most 32 slots, so the
`u8` conversion of its length cannot fail. -/
theorem bufLen_le_u8 (st : Bsec) (hs : st.subscribed < 2 ^ 32)
    (hq : st.ulpPlusQueue < 2 ^ 32) :
    ¬countOnes (st.subscribed ||| st.ulpPlusQueue) > U8_MAX := by
  have h32 : st.subscribed ||| st.ulpPlusQueue < 2 ^ 32 := Nat.or_lt_two_pow hs hq
  have := countOnes_le 32 _ h32
  unfold U8_MAX
  omega

theorem wireInputs_length (ts : Int) (meas : List BmeOutput) :
    (wireInputs ts meas).length = meas.length := List.length_map _ _

/-- Reduction of `process_last_measurement` on the path where the sensor
poll succeeded and both `u8` conversions fit. -/
theorem processLastMeasurement_ok_step {ε : Type} (st : Bsec) (ts : Int)
    (meas : List BmeOutput)
    (doSteps : List BsecInputT → Nat → Except BsecError (List BsecOutputT × Nat))
    (hbuf : ¬countOnes (st.subscribed ||| st.ulpPlusQueue) > U8_MAX)
    (hin : ¬(wireInputs ts meas).length > U8_MAX) :
    Bsec.processLastMeasurement st ts (.ok meas) doSteps =
      (match doSteps (wireInputs ts meas) (countOnes (st.subscribed ||| st.ulpPlusQueue)) with
      | .error e =>
          { result := .error (.other (.bsecError e)), state := { st with ulpPlusQueue := 0 }
            stepBuffer := some (countOnes (st.subscribed ||| st.ulpPlusQueue)) }
      | .ok (outs, n) =>
        match (outs.take n).mapM OutputSignal.tryFrom with
        | .error ce =>
            { result := .error (.other (.conversionError ce))
              state := { st with ulpPlusQueue := 0 }
              stepBuffer := some (countOnes (st.subscribed ||| st.ulpPlusQueue)) }
        | .ok signals =>
            { result := .ok signals, state := { st with ulpPlusQueue := 0 }
              stepBuffer := some (countOnes (st.subscribed ||| st.ulpPlusQueue)) } :
        ProcessOutcome ε) := by
  simp only [Bsec.processLastMeasurement]
  rw [if_neg hbuf, if_neg hin]

/-- Claim C10: error atomicity of the one-shot set in
`process_last_measurement` depends on where the failure happens.  A sensor
poll that yields `WouldBlock` or a sensor error leaves the whole adapter
state (the one-shot set included) unchanged; but when the engine step itself
fails, the one-shot set was already cleared before the step and stays
empty. -/
theorem c10_one_shot_error_atomicity (st : Bsec) (ts : Int)
    (doSteps : List BsecInputT → Nat → Except BsecError (List BsecOutputT × Nat)) :
    ((Bsec.processLastMeasurement (ε := Unit) st ts (.error .wouldBlock) doSteps).state = st ∧
      (Bsec.processLastMeasurement (ε := Unit) st ts (.error .wouldBlock) doSteps).result
        = .error .wouldBlock) ∧
    (∀ e : Unit,
      (Bsec.processLastMeasurement st ts (.error (.other e)) doSteps).state = st ∧
      (Bsec.processLastMeasurement st ts (.error (.other e)) doSteps).result
        = .error (.other (.bmeSensorError e))) ∧
    (∀ (meas : List BmeOutput) (e : BsecError),
      st.subscribed < 2 ^ 32 → st.ulpPlusQueue < 2 ^ 32 → meas.length ≤ U8_MAX →
      doSteps (wireInputs ts meas) (countOnes (st.subscribed ||| st.ulpPlusQueue)) = .error e →
      (Bsec.processLastMeasurement (ε := Unit) st ts (.ok meas) doSteps).state
          = { st with ulpPlusQueue := 0 } ∧
      (Bsec.processLastMeasurement (ε := Unit) st ts (.ok meas) doSteps).result
          = .error (.other (.bsecError e))) := by
  refine ⟨⟨rfl, rfl⟩, fun e => ⟨rfl, rfl⟩, fun meas e hs hq hm hstep => ?_⟩
  have hin : ¬(wireInputs ts meas).length > U8_MAX := by
    rw [wireInputs_length]
    omega
  rw [processLastMeasurement_ok_step st ts meas doSteps (bufLen_le_u8 st hs hq) hin, hstep]
  exact ⟨rfl, rfl⟩

/-- Witness for C10: with one sensor subscribed and one queued one-shot, a
failing engine step leaves the one-shot set cleared while a `WouldBlock`
poll leaves it untouched. -/
theorem c10_one_shot_error_atomicity_witness :
    (Bsec.processLastMeasurement (ε := Unit) ⟨0x10, 0x1, 0⟩ 0 (.error .wouldBlock)
        (fun _ _ => .error ⟨2⟩)).state = ⟨0x10, 0x1, 0⟩ ∧
    (Bsec.processLastMeasurement (ε := Unit) ⟨0x10, 0x1, 0⟩ 0 (.ok [])
        (fun _ _ => .error ⟨2⟩)).state = ⟨0x10, 0, 0⟩ :=
  ⟨(c10_one_shot_error_atomicity ⟨0x10, 0x1, 0⟩ 0 (fun _ _ => .error ⟨2⟩)).1.1,
    ((c10_one_shot_error_atomicity ⟨0x10, 0x1, 0⟩ 0 (fun _ _ => .error ⟨2⟩)).2.2 [] ⟨2⟩
      (by norm_num) (by norm_num) (by decide) rfl).1⟩

/-- Claim C7: loading persisted state when the state file does not exist
returns `Ok(None)` (cold start) rather than an error; any other I/O failure
on open, and any failure while reading, is returned as an error; a
successful read returns `Ok(Some(contents))`.  The scheduler's startup
restores a blob into the engine exactly when the load returned `Some`. -/
theorem c7_cold_start_load :
    (StateFile.loadState (.failed ⟨.notFound⟩) = .ok none) ∧
    (∀ e : IoError, e.kind ≠ .notFound → StateFile.loadState (.failed e) = .error e) ∧
    (∀ s : Blob, StateFile.loadState (.opened (.ok s)) = .ok (some s)) ∧
    (∀ e : IoError, StateFile.loadState (.opened (.error e)) = .error e) ∧
    (∀ (load : Except IoError (Option Blob)) (setState : Blob → Except IoError Unit),
      (Monitor.startupRestore load setState).restored
        = match load with
          | .ok (some s) => some s
          | _ => none) ∧
    (∀ (e : IoError) (setState : Blob → Except IoError Unit),
      (Monitor.startupRestore (.error e) setState).result = .error e) := by
  refine ⟨rfl, fun e he => ?_, fun s => rfl, fun e => rfl, fun load setState => ?_, fun e _ => rfl⟩
  · cases hk : e.kind with
    | notFound => exact absurd hk he
    | permissionDenied => simp [StateFile.loadState, hk]
    | otherKind => simp [StateFile.loadState, hk]
  · cases load with
    | error e => rfl
    | ok o =>
      cases o with
      | none => rfl
      | some s =>
        simp only [Monitor.startupRestore]
        cases setState s <;> rfl

/-- Witness for C7: a permission-denied open error is propagated. -/
theorem c7_cold_start_load_witness :
    StateFile.loadState (.failed ⟨.permissionDenied⟩) = .error ⟨.permissionDenied⟩ :=
  c7_cold_start_load.2.1 ⟨.permissionDenied⟩ (by decide)

theorem sensorBit_eq_two_pow (s : VirtualSensorOutput) : sensorBit s = 2 ^ sensorBitIndex s := by
  cases s <;> rfl

theorem sensorBitIndex_lt (s : VirtualSensorOutput) : sensorBitIndex s < 32 := by
  cases s <;> decide

theorem sensorBitIndex_inj :
    ∀ a b : VirtualSensorOutput, sensorBitIndex a = sensorBitIndex b → a = b := by decide

theorem testBit_sensorBit (r s : VirtualSensorOutput) :
    (sensorBit r).testBit (sensorBitIndex s) = decide (r = s) := by
  rw [sensorBit_eq_two_pow, Nat.testBit_two_pow]
  by_cases h : r = s
  · subst h
    simp
  · have hidx : sensorBitIndex r ≠ sensorBitIndex s := fun hh => h (sensorBitIndex_inj r s hh)
    simp [h, hidx]

theorem testBit_u32Not (b j : Nat) (hj : j < 32) : (u32Not b).testBit j = !b.testBit j := by
  unfold u32Not
  rw [Nat.testBit_xor]
  have h1 : (0xFFFFFFFF : Nat) = 2 ^ 32 - 1 := by norm_num
  rw [h1, Nat.testBit_two_pow_sub_one]
  simp [hj]

/-- Specification-side effect of one subscription request on one sensor's
membership in the subscribed set: `Disabled` removes the sensor, a one-shot
request leaves the subscribed set alone, any other rate adds the sensor;
requests for other sensors have no effect. -/
def subscribedStep (cur : Bool) (r : RequestedSensorConfiguration)
    (s : VirtualSensorOutput) : Bool :=
  if r.sensor = s then
    match r.sampleRate with
    | .disabled => false
    | .ulpMeasurementOnDemand => cur
    | _ => true
  else cur

/-- Specification-side effect of one subscription request on one sensor's
membership in the queued-one-shot set: `Disabled` removes the sensor,
`UlpMeasurementOnDemand` adds it, any other rate leaves the set alone. -/
def oneShotStep (cur : Bool) (r : RequestedSensorConfiguration)
    (s : VirtualSensorOutput) : Bool :=
  if r.sensor = s then
    match r.sampleRate with
    | .disabled => false
    | .ulpMeasurementOnDemand => true
    | _ => cur
  else cur

/-- Membership of sensor `s` in the subscribed set after a request list. -/
def subscribedSpec (rs : List RequestedSensorConfiguration) (b : Bool)
    (s : VirtualSensorOutput) : Bool :=
  rs.foldl (fun cur r => subscribedStep cur r s) b

/-- Membership of sensor `s` in the queued-one-shot set after a request
list. -/
def oneShotSpec (rs : List RequestedSensorConfiguration) (b : Bool)
    (s : VirtualSensorOutput) : Bool :=
  rs.foldl (fun cur r => oneShotStep cur r s) b

theorem applyRequest_subscribed_testBit (st : Bsec) (r : RequestedSensorConfiguration)
    (s : VirtualSensorOutput) :
    (applyRequest st r).subscribed.testBit (sensorBitIndex s)
      = subscribedStep (st.subscribed.testBit (sensorBitIndex s)) r s := by
  obtain ⟨rate, rsensor⟩ := r
  cases rate <;>
    simp only [applyRequest, subscribedStep, Nat.testBit_land, Nat.testBit_lor,
      testBit_u32Not _ _ (sensorBitIndex_lt s), testBit_sensorBit] <;>
    by_cases h : rsensor = s <;>
    simp [h]

theorem applyRequest_oneShot_testBit (st : Bsec) (r : RequestedSensorConfiguration)
    (s : VirtualSensorOutput) :
    (applyRequest st r).ulpPlusQueue.testBit (sensorBitIndex s)
      = oneShotStep (st.ulpPlusQueue.testBit (sensorBitIndex s)) r s := by
  obtain ⟨rate, rsensor⟩ := r
  cases rate <;>
    simp only [applyRequest, oneShotStep, Nat.testBit_land, Nat.testBit_lor,
      testBit_u32Not _ _ (sensorBitIndex_lt s), testBit_sensorBit] <;>
    by_cases h : rsensor = s <;>
    simp [h]

theorem foldl_applyRequest_subscribed (rs : List RequestedSensorConfiguration) :
    ∀ (st : Bsec) (s : VirtualSensorOutput),
      (rs.foldl applyRequest st).subscribed.testBit (sensorBitIndex s)
        = subscribedSpec rs (st.subscribed.testBit (sensorBitIndex s)) s := by
  induction rs with
  | nil => intro st s; rfl
  | cons r rs ih =>
    intro st s
    rw [List.foldl_cons, ih (applyRequest st r) s, applyRequest_subscribed_testBit]
    rfl

theorem foldl_applyRequest_oneShot (rs : List RequestedSensorConfiguration) :
    ∀ (st : Bsec) (s : VirtualSensorOutput),
      (rs.foldl applyRequest st).ulpPlusQueue.testBit (sensorBitIndex s)
        = oneShotSpec rs (st.ulpPlusQueue.testBit (sensorBitIndex s)) s := by
  induction rs with
  | nil => intro st s; rfl
  | cons r rs ih =>
    intro st s
    rw [List.foldl_cons, ih (applyRequest st r) s, applyRequest_oneShot_testBit]
    rfl

/-- Claim C3: when the engine call inside `update_subscription` succeeds,
the local sets are updated per request (`Disabled` removes the sensor from
both the subscribed and the one-shot set, `UlpMeasurementOnDemand` adds it
to the one-shot set, any other rate adds it to the subscribed set), and when
the engine call fails, both local sets are left unchanged. -/
theorem c3_update_subscription_sets (st : Bsec) (rs : List RequestedSensorConfiguration)
    (engine : Except BsecError (List BsecSensorConfigurationT × Nat)) :
    (∀ e, engine = .error e → (Bsec.updateSubscription (ε := Unit) st rs engine).state = st) ∧
    (∀ buf n, engine = .ok (buf, n) → rs.length ≤ U8_MAX →
      ∀ s : VirtualSensorOutput,
        ((Bsec.updateSubscription (ε := Unit) st rs engine).state.subscribed.testBit
            (sensorBitIndex s)
          = subscribedSpec rs (st.subscribed.testBit (sensorBitIndex s)) s) ∧
        ((Bsec.updateSubscription (ε := Unit) st rs engine).state.ulpPlusQueue.testBit
            (sensorBitIndex s)
          = oneShotSpec rs (st.ulpPlusQueue.testBit (sensorBitIndex s)) s)) := by
  constructor
  · intro e he
    subst he
    unfold Bsec.updateSubscription
    by_cases hl : rs.length > U8_MAX
    · rw [if_pos hl]
    · rw [if_neg hl]
  · intro buf n he hlen s
    subst he
    simp only [Bsec.updateSubscription]
    rw [if_neg (by omega : ¬rs.length > U8_MAX)]
    exact ⟨foldl_applyRequest_subscribed rs st s, foldl_applyRequest_oneShot rs st s⟩

/-- Witness for C3 on a concrete state (`iaq` subscribed, `staticIaq`
queued) and a three-request list exercising all three rate cases. -/
theorem c3_update_subscription_sets_witness :
    ((Bsec.updateSubscription (ε := Unit) ⟨1, 2, 0⟩
        [⟨.disabled, .iaq⟩, ⟨.ulpMeasurementOnDemand, .co2Equivalent⟩, ⟨.lp, .rawGas⟩]
        (.ok ([], 0))).state.subscribed.testBit (sensorBitIndex .iaq) = false) ∧
    ((Bsec.updateSubscription (ε := Unit) ⟨1, 2, 0⟩
        [⟨.disabled, .iaq⟩, ⟨.ulpMeasurementOnDemand, .co2Equivalent⟩, ⟨.lp, .rawGas⟩]
        (.ok ([], 0))).state.subscribed.testBit (sensorBitIndex .rawGas) = true) ∧
    ((Bsec.updateSubscription (ε := Unit) ⟨1, 2, 0⟩
        [⟨.disabled, .iaq⟩, ⟨.ulpMeasurementOnDemand, .co2Equivalent⟩, ⟨.lp, .rawGas⟩]
        (.ok ([], 0))).state.ulpPlusQueue.testBit (sensorBitIndex .co2Equivalent) = true) ∧
    ((Bsec.updateSubscription (ε := Unit) ⟨1, 2, 0⟩
        [⟨.disabled, .iaq⟩, ⟨.ulpMeasurementOnDemand, .co2Equivalent⟩, ⟨.lp, .rawGas⟩]
        (.ok ([], 0))).state.ulpPlusQueue.testBit (sensorBitIndex .staticIaq) = true) := by
  have h := (c3_update_subscription_sets ⟨1, 2, 0⟩
      [⟨.disabled, .iaq⟩, ⟨.ulpMeasurementOnDemand, .co2Equivalent⟩, ⟨.lp, .rawGas⟩]
      (.ok ([], 0))).2 [] 0 rfl (by decide)
  refine ⟨?_, ?_, ?_, ?_⟩
  · rw [(h .iaq).1]; decide
  · rw [(h .rawGas).1]; decide
  · rw [(h .co2Equivalent).2]; decide
  · rw [(h .staticIaq).2]; decide

/-- State and buffer-size characterization of a `process_last_measurement`
call whose sensor poll succeeded, under genuine `u32`/`u8` bounds. -/
theorem process_ok_state_buffer {ε : Type} (st : Bsec) (ts : Int) (meas : List BmeOutput)
    (doSteps : List BsecInputT → Nat → Except BsecError (List BsecOutputT × Nat))
    (hs : st.subscribed < 2 ^ 32) (hq : st.ulpPlusQueue < 2 ^ 32)
    (hm : meas.length ≤ U8_MAX) :
    (Bsec.processLastMeasurement (ε := ε) st ts (.ok meas) doSteps).state
        = { st with ulpPlusQueue := 0 } ∧
    (Bsec.processLastMeasurement (ε := ε) st ts (.ok meas) doSteps).stepBuffer
        = some (countOnes (st.subscribed ||| st.ulpPlusQueue)) := by
  have hin : ¬(wireInputs ts meas).length > U8_MAX := by
    rw [wireInputs_length]
    omega
  rw [processLastMeasurement_ok_step st ts meas doSteps (bufLen_le_u8 st hs hq) hin]
  refine ⟨?_, ?_⟩ <;>
    (split <;> first
      | rfl
      | (split <;> rfl))

/-- Claim C4: `process_last_measurement` sizes the engine-step output buffer
to the popcount of (subscribed ∪ one-shot) and clears the one-shot set while
leaving the subscribed set alone, so a sensor not in the subscribed set is
no longer in the union afterwards, and any following step's buffer is sized
to the subscribed set only. -/
theorem c4_one_shot_single_use (st : Bsec) (ts : Int) (meas : List BmeOutput)
    (doSteps : List BsecInputT → Nat → Except BsecError (List BsecOutputT × Nat))
    (hs : st.subscribed < 2 ^ 32) (hq : st.ulpPlusQueue < 2 ^ 32)
    (hm : meas.length ≤ U8_MAX) :
    (Bsec.processLastMeasurement (ε := Unit) st ts (.ok meas) doSteps).stepBuffer
        = some (countOnes (st.subscribed ||| st.ulpPlusQueue)) ∧
    (Bsec.processLastMeasurement (ε := Unit) st ts (.ok meas) doSteps).state.ulpPlusQueue = 0 ∧
    (Bsec.processLastMeasurement (ε := Unit) st ts (.ok meas) doSteps).state.subscribed
        = st.subscribed ∧
    (∀ s : VirtualSensorOutput, st.subscribed.testBit (sensorBitIndex s) = false →
      ((Bsec.processLastMeasurement (ε := Unit) st ts (.ok meas) doSteps).state.subscribed
          ||| (Bsec.processLastMeasurement (ε := Unit) st ts (.ok meas) doSteps).state.ulpPlusQueue).testBit
          (sensorBitIndex s) = false) ∧
    (∀ (ts2 : Int) (meas2 : List BmeOutput)
        (doSteps2 : List BsecInputT → Nat → Except BsecError (List BsecOutputT × Nat)),
      meas2.length ≤ U8_MAX →
      (Bsec.processLastMeasurement (ε := Unit)
          (Bsec.processLastMeasurement (ε := Unit) st ts (.ok meas) doSteps).state
          ts2 (.ok meas2) doSteps2).stepBuffer = some (countOnes st.subscribed)) := by
  obtain ⟨hstate, hbuf⟩ := process_ok_state_buffer (ε := Unit) st ts meas doSteps hs hq hm
  refine ⟨hbuf, ?_, ?_, ?_, ?_⟩
  · rw [hstate]
  · rw [hstate]
  · intro s hfalse
    rw [hstate]
    simp [Nat.testBit_lor, hfalse]
  · intro ts2 meas2 doSteps2 hm2
    rw [hstate]
    have h2 := process_ok_state_buffer (ε := Unit) { st with ulpPlusQueue := 0 } ts2 meas2
      doSteps2 hs (by norm_num) hm2
    rw [h2.2]
    simp

/-- Witness for C4: with `rawTemperature` subscribed (bit 16) and `iaq`
queued one-shot (bit 1), the step buffer holds two slots and the one-shot
set is cleared. -/
theorem c4_one_shot_single_use_witness :
    ((Bsec.processLastMeasurement (ε := Unit) ⟨16, 1, 0⟩ 0 (.ok [])
        (fun _ _ => .ok ([], 0))).stepBuffer = some 2) ∧
    ((Bsec.processLastMeasurement (ε := Unit) ⟨16, 1, 0⟩ 0 (.ok [])
        (fun _ _ => .ok ([], 0))).state.ulpPlusQueue = 0) := by
  have h := c4_one_shot_single_use ⟨16, 1, 0⟩ 0 [] (fun _ _ => .ok ([], 0))
    (by norm_num) (by norm_num) (by decide)
  refine ⟨?_, h.2.1⟩
  rw [h.1]
  have hlor : (16 ||| 1 : Nat) = 17 := by decide
  rw [hlor]
  simp [countOnes]

theorem mapM_ok_of_forall {α β γ : Type} (f : α → Except γ β) :
    ∀ l : List α, (∀ a ∈ l, ∃ b, f a = .ok b) → ∃ bs, l.mapM f = .ok bs := by
  intro l
  induction l with
  | nil => intro _; exact ⟨[], rfl⟩
  | cons a l ih =>
    intro h
    obtain ⟨b, hb⟩ := h a (List.mem_cons_self a l)
    obtain ⟨bs, hbs⟩ := ih fun x hx => h x (List.mem_cons_of_mem a hx)
    exact ⟨b :: bs, by rw [List.mapM_cons, hb, hbs]; rfl⟩

theorem mapM_error_of_exists {α β γ : Type} (f : α → Except γ β) :
    ∀ l : List α, (∃ a ∈ l, ∀ b, f a ≠ .ok b) → ∃ e, l.mapM f = .error e := by
  intro l
  induction l with
  | nil =>
    rintro ⟨a, ha, _⟩
    exact absurd ha (List.not_mem_nil a)
  | cons a l ih =>
    rintro ⟨x, hx, hfx⟩
    cases hfa : f a with
    | error e => exact ⟨e, by rw [List.mapM_cons, hfa]; rfl⟩
    | ok b =>
      rcases List.mem_cons.mp hx with hxa | hxl
      · subst hxa
        exact absurd hfa (hfx b)
      · obtain ⟨e, he⟩ := ih ⟨x, hxl, hfx⟩
        exact ⟨e, by rw [List.mapM_cons, hfa, he]; rfl⟩

/-- Reduction of `process_last_measurement` on the path where the sensor
poll and the engine step both succeeded: the call reduces to the collected
conversion of the first `n` filled output slots. -/
theorem processLastMeasurement_ok_step_ok {ε : Type} (st : Bsec) (ts : Int)
    (meas : List BmeOutput)
    (doSteps : List BsecInputT → Nat → Except BsecError (List BsecOutputT × Nat))
    (outs : List BsecOutputT) (n : Nat)
    (hbuf : ¬countOnes (st.subscribed ||| st.ulpPlusQueue) > U8_MAX)
    (hin : ¬(wireInputs ts meas).length > U8_MAX)
    (hstep : doSteps (wireInputs ts meas) (countOnes (st.subscribed ||| st.ulpPlusQueue))
      = .ok (outs, n)) :
    Bsec.processLastMeasurement st ts (.ok meas) doSteps =
      (match (outs.take n).mapM OutputSignal.tryFrom with
      | .error ce =>
          { result := .error (.other (.conversionError ce))
            state := { st with ulpPlusQueue := 0 }
            stepBuffer := some (countOnes (st.subscribed ||| st.ulpPlusQueue)) }
      | .ok signals =>
          { result := .ok signals, state := { st with ulpPlusQueue := 0 }
            stepBuffer := some (countOnes (st.subscribed ||| st.ulpPlusQueue)) } :
        ProcessOutcome ε) := by
  rw [processLastMeasurement_ok_step st ts meas doSteps hbuf hin, hstep]

/-- Counterexample for Claim C2: with two sensors subscribed
(`rawTemperature ||| rawPressure` = `0x30`, so the engine-step buffer has
two slots), a filled two-entry buffer whose second entry carries the invalid
sensor wire code 0 makes the whole `process_last_measurement` call fail with
that conversion error; the convertible `rawTemperature` entry in the same
buffer is not returned. -/
theorem c2_output_conversion_counterexample :
    (Bsec.processLastMeasurement (ε := Unit) ⟨0x30, 0, 0⟩ 0
        (.ok [⟨⟨0⟩, .temperature⟩])
        (fun _ _ => .ok ([⟨0, ⟨0⟩, 1, 6, 3⟩, ⟨0, ⟨0⟩, 1, 0, 0⟩], 2))).result
      = .error (.other (.conversionError (.invalidVirtualSensorId 0))) := by
  have hbuf : ¬countOnes ((0x30 : Nat) ||| 0) > U8_MAX := bufLen_le_u8 ⟨0x30, 0, 0⟩
    (by norm_num) (by norm_num)
  have hin : ¬(wireInputs 0 [⟨⟨0⟩, .temperature⟩]).length > U8_MAX := by
    rw [wireInputs_length]
    decide
  rw [processLastMeasurement_ok_step_ok ⟨0x30, 0, 0⟩ 0 [⟨⟨0⟩, .temperature⟩] _
    [⟨0, ⟨0⟩, 1, 6, 3⟩, ⟨0, ⟨0⟩, 1, 0, 0⟩] 2 hbuf hin rfl]
  rfl

/-- Claim C2 (amended): `process_last_measurement` does not drop
unconvertible wire outputs.  When every entry of the filled output buffer
converts, the call succeeds with all converted entries; when any entry fails
conversion, the whole call fails with a `ConversionError` and no output list
is returned. -/
theorem c2_output_conversion_strictness (st : Bsec) (ts : Int) (meas : List BmeOutput)
    (doSteps : List BsecInputT → Nat → Except BsecError (List BsecOutputT × Nat))
    (outs : List BsecOutputT) (n : Nat)
    (hs : st.subscribed < 2 ^ 32) (hq : st.ulpPlusQueue < 2 ^ 32)
    (hm : meas.length ≤ U8_MAX)
    (hstep : doSteps (wireInputs ts meas) (countOnes (st.subscribed ||| st.ulpPlusQueue))
      = .ok (outs, n)) :
    ((∀ o ∈ outs.take n, ∃ sig, OutputSignal.tryFrom o = .ok sig) →
      ∃ sigs, (Bsec.processLastMeasurement (ε := Unit) st ts (.ok meas) doSteps).result
        = .ok sigs) ∧
    ((∃ o ∈ outs.take n, ∀ sig, OutputSignal.tryFrom o ≠ .ok sig) →
      ∃ ce, (Bsec.processLastMeasurement (ε := Unit) st ts (.ok meas) doSteps).result
        = .error (.other (.conversionError ce))) := by
  have hin : ¬(wireInputs ts meas).length > U8_MAX := by
    rw [wireInputs_length]
    omega
  rw [processLastMeasurement_ok_step_ok st ts meas doSteps outs n
    (bufLen_le_u8 st hs hq) hin hstep]
  constructor
  · intro hall
    obtain ⟨sigs, hsigs⟩ := mapM_ok_of_forall OutputSignal.tryFrom (outs.take n) hall
    exact ⟨sigs, by rw [hsigs]⟩
  · intro hex
    obtain ⟨ce, hce⟩ := mapM_error_of_exists OutputSignal.tryFrom (outs.take n) hex
    exact ⟨ce, by rw [hce]⟩

/-- Witness for the amended C2 on concrete buffers: an all-convertible
buffer yields an output list, a buffer with one invalid sensor id yields a
conversion error. -/
theorem c2_output_conversion_strictness_witness :
    (∃ sigs, (Bsec.processLastMeasurement (ε := Unit) ⟨16, 0, 0⟩ 0
        (.ok [⟨⟨0⟩, .temperature⟩])
        (fun _ _ => .ok ([⟨0, ⟨0⟩, 1, 6, 3⟩], 1))).result = .ok sigs) ∧
    (∃ ce, (Bsec.processLastMeasurement (ε := Unit) ⟨16, 0, 0⟩ 0
        (.ok [⟨⟨0⟩, .temperature⟩])
        (fun _ _ => .ok ([⟨0, ⟨0⟩, 1, 0, 0⟩], 1))).result
      = .error (.other (.conversionError ce))) := by
  constructor
  · refine (c2_output_conversion_strictness ⟨16, 0, 0⟩ 0 [⟨⟨0⟩, .temperature⟩] _
      [⟨0, ⟨0⟩, 1, 6, 3⟩] 1 (by norm_num) (by norm_num) (by decide) rfl).1 ?_
    intro o ho
    rw [show ([⟨0, ⟨0⟩, 1, 6, 3⟩] : List BsecOutputT).take 1 = [⟨0, ⟨0⟩, 1, 6, 3⟩] from rfl]
      at ho
    rw [List.mem_singleton.mp ho]
    exact ⟨⟨0, f32ToF64 ⟨0⟩, .rawTemperature, .highAccuracy⟩, rfl⟩
  · refine (c2_output_conversion_strictness ⟨16, 0, 0⟩ 0 [⟨⟨0⟩, .temperature⟩] _
      [⟨0, ⟨0⟩, 1, 0, 0⟩] 1 (by norm_num) (by norm_num) (by decide) rfl).2 ?_
    refine ⟨⟨0, ⟨0⟩, 1, 0, 0⟩, by decide, fun sig h => ?_⟩
    rw [show OutputSignal.tryFrom ⟨0, ⟨0⟩, 1, 0, 0⟩
      = .error (.invalidVirtualSensorId 0) from rfl] at h
    exact Except.noConfusion h

/-- Run of the monitoring loop from iteration `i` with `k` remaining
no-shutdown checks, when every effectful call in range succeeds: it finishes
with the saves predicted by the specification recurrences, one final save
appended, and returns the threaded engine adapter and persistence handle. -/
theorem monitoringLoopFrom_spec {μ π : Type} (env : LoopEnv μ) (persist : π)
    (bsec0 : Bsec) (t0 : Int) (bF : Blob)
    (hfs : env.finalState = .ok bF) (hfsave : env.finalSave bF = .ok ()) :
    ∀ k i : Nat,
      (∀ j, i ≤ j → j < i + k → ∃ b, env.tick j (bsecAfter env bsec0 j) = .ok b) →
      (∀ j, i ≤ j → j < i + k → ∃ b, env.stateAt j = .ok b) →
      (∀ j, i ≤ j → j < i + k → ∀ b, env.saveAt j b = .ok ()) →
      monitoringLoopFrom env persist k i (bsecAfter env bsec0 i) (lastSaveAfter env t0 i)
          (savesUpTo env t0 i)
        = .finished (savesUpTo env t0 (i + k) ++ [bF]) (bsecAfter env bsec0 (i + k), persist) := by
  intro k
  induction k with
  | zero =>
    intro i _ _ _
    simp only [monitoringLoopFrom, hfs, hfsave, Nat.add_zero]
  | succ k ih =>
    intro i htick hstate hsave
    obtain ⟨b, hb⟩ := htick i (le_refl i) (by omega)
    have hb' : bsecAfter env bsec0 (i + 1) = b := by
      simp only [bsecAfter, hb]
    have harith : i + 1 + k = i + (k + 1) := by omega
    have hrec := ih (i + 1)
      (fun j hj1 hj2 => htick j (by omega) (by omega))
      (fun j hj1 hj2 => hstate j (by omega) (by omega))
      (fun j hj1 hj2 => hsave j (by omega) (by omega))
    rw [harith] at hrec
    simp only [monitoringLoopFrom, hb]
    by_cases hc : env.timeAtCheck i - lastSaveAfter env t0 i ≥ SAVE_STATE_INTERVAL_NS
    · rw [if_pos hc]
      obtain ⟨blob, hblob⟩ := hstate i (le_refl i) (by omega)
      have hls : lastSaveAfter env t0 (i + 1) = env.timeAtSave i := by
        simp only [lastSaveAfter]
        rw [if_pos hc]
      have hsv : savesUpTo env t0 (i + 1) = savesUpTo env t0 i ++ [blob] := by
        simp only [savesUpTo]
        rw [if_pos hc, hblob]
      rw [hblob]
      simp only [hsave i (le_refl i) (by omega) blob]
      rw [← hb', ← hls, ← hsv]
      exact hrec
    · rw [if_neg hc]
      have hls : lastSaveAfter env t0 (i + 1) = lastSaveAfter env t0 i := by
        simp only [lastSaveAfter]
        rw [if_neg hc]
      have hsv : savesUpTo env t0 (i + 1) = savesUpTo env t0 i := by
        simp only [savesUpTo]
        rw [if_neg hc]
        exact List.append_nil _
      rw [← hb', ← hls, ← hsv]
      exact hrec

/-- Claim C8: when every call of the loop body succeeds and the shutdown
signal is observed at the `(k+1)`-th check, the monitoring loop persists the
state blob on every iteration whose engine-clock time elapsed since the last
save exceeds 60 seconds, then exits, persists exactly one final blob, and
returns ownership of the engine adapter and the persistence handle. -/
theorem c8_autosave_and_shutdown {μ π : Type} (env : LoopEnv μ) (persist : π)
    (load : Except μ (Option Blob)) (setState : Blob → Except μ Unit)
    (bsec0 : Bsec) (t0 : Int) (k : Nat) (bF : Blob)
    (hstart : (Monitor.startupRestore load setState).result = .ok ())
    (htick : ∀ j, j < k → ∃ b, env.tick j (bsecAfter env bsec0 j) = .ok b)
    (hstate : ∀ j, j < k → ∃ b, env.stateAt j = .ok b)
    (hsave : ∀ j, j < k → ∀ b, env.saveAt j b = .ok ())
    (hfs : env.finalState = .ok bF) (hfsave : env.finalSave bF = .ok ()) :
    Monitor.monitoringLoop env persist load setState bsec0 t0 k
        = .finished (savesUpTo env t0 k ++ [bF]) (bsecAfter env bsec0 k, persist) ∧
    (∀ i, i < k → SAVE_STATE_INTERVAL_NS < env.timeAtCheck i - lastSaveAfter env t0 i →
      ∃ b, env.stateAt i = .ok b ∧
        savesUpTo env t0 (i + 1) = savesUpTo env t0 i ++ [b]) := by
  constructor
  · have h := monitoringLoopFrom_spec env persist bsec0 t0 bF hfs hfsave k 0
      (fun j _ hj => htick j (by omega))
      (fun j _ hj => hstate j (by omega))
      (fun j _ hj => hsave j (by omega))
    rw [Nat.zero_add] at h
    simp only [Monitor.monitoringLoop, hstart]
    exact h
  · intro i hik hgt
    obtain ⟨b, hb⟩ := hstate i hik
    refine ⟨b, hb, ?_⟩
    simp only [savesUpTo]
    rw [if_pos (by omega : env.timeAtCheck i - lastSaveAfter env t0 i
      ≥ SAVE_STATE_INTERVAL_NS), hb]

/-- A concrete loop environment for the C8 witness: one iteration, the
elapsed engine-clock time at its save check being 70 seconds. -/
def c8envDemo : LoopEnv Unit where
  tick := fun _ b => .ok b
  timeAtCheck := fun _ => 70000000000
  timeAtSave := fun _ => 70000000001
  stateAt := fun _ => .ok [1]
  saveAt := fun _ _ => .ok ()
  finalState := .ok [2]
  finalSave := fun _ => .ok ()

/-- Witness for C8: one iteration whose elapsed time exceeds the threshold
saves blob `[1]`, the shutdown then saves exactly the final blob `[2]` and
ownership is returned. -/
theorem c8_autosave_and_shutdown_witness :
    Monitor.monitoringLoop c8envDemo () (.ok none) (fun _ => .ok ()) ⟨0, 0, 0⟩ 0 1
      = .finished [[1], [2]] (⟨0, 0, 0⟩, ()) := by
  have h := (c8_autosave_and_shutdown c8envDemo () (.ok none) (fun _ => .ok ())
    ⟨0, 0, 0⟩ 0 1 [2] rfl (fun j _ => ⟨bsecAfter c8envDemo ⟨0, 0, 0⟩ j, rfl⟩)
    (fun j _ => ⟨[1], rfl⟩) (fun j _ b => rfl) rfl rfl).1
  rw [h]
  norm_num [savesUpTo, lastSaveAfter, bsecAfter, c8envDemo, SAVE_STATE_INTERVAL_NS]

end LinuxBsec
